import Mathlib

/-!
Verification of the recording-session controller of `obs_tracker_V2.1.py`
(class `OBSCompanionTracker` and the gamepad helper `WorkingGamepadTracker`).

The Python tracker is embedded shallowly:

* `TrackerState` carries the mutable fields of `OBSCompanionTracker` that the
  session controller reads or writes.  The open log file is modelled as the
  list of records written to it so far (`log_file : Option (List LogEntry)`);
  closing a file moves its record list into `closed_files`.  The pynput
  listeners and the gamepad tracker are modelled by booleans recording
  whether the source is armed (listener started / tracking thread running).
* Clock reads (`time.perf_counter()`, `time.time()`) become explicit `now` /
  `abs_now` parameters of the functions that perform them.
* Fallible operations raise in Python; the embedding returns
  `Except Unit TrackerState`, with `.error ()` standing for a raised
  exception.  Which environment operations fail (`open`, a file write, a
  `pynput` listener `start`) is supplied as explicit boolean inputs
  (`StartEnv`, the `wfail` argument of `log_event`).
-/

/-- The payload (`details` dict) of one log record, per record category. -/
inductive EventDetails where
  | sessionStart (start_time_unix : Nat) (obs_connected pynput_available
      gamepad_enabled pygame_available : Bool) (gamepad_count : Option Nat)
  | mouseDelta (dx dy : Int) (pos : Option (Int × Int))
  | mouseClick (button action : String) (x y : Int)
  | keyInfo (key : String)
  | gamepadData (data : String)
  | sessionEnd (total_events mouse_events keyboard_events gamepad_events : Nat)
      (duration_seconds : Int)
  deriving DecidableEq, Repr

/-- One line of the jsonl log, as built by `log_event` (lines 338-343). -/
structure LogEntry where
  timestamp : Int
  absolute_time : Nat
  event_type : String
  details : EventDetails
  deriving DecidableEq, Repr

/-- The session-relevant mutable state of `OBSCompanionTracker`.
`log_file = some records` means the per-session file is open and holds
`records`; `mouse_listener` / `keyboard_listener` / `gamepad_tracking` record
whether that input source is armed.  `include_mouse_position`,
`gamepad_enabled`, `pynput_available`, `pygame_available`, `obs_connected`
are the configuration/availability values the session code reads.
`closed_files` accumulates the record lists of files that were closed, in
close order (it models the effect of `self.log_file.close()`). -/
structure TrackerState where
  recording : Bool
  start_time : Option Nat
  log_file : Option (List LogEntry)
  current_log_path : Option Nat
  mouse_listener : Bool
  keyboard_listener : Bool
  gamepad_tracking : Bool
  last_mouse_pos : Option (Int × Int)
  event_count : Nat
  mouse_count : Nat
  keyboard_count : Nat
  gamepad_count : Nat
  include_mouse_position : Bool
  gamepad_enabled : Bool
  pynput_available : Bool
  pygame_available : Bool
  obs_connected : Bool
  closed_files : List (List LogEntry)
  deriving DecidableEq, Repr

/-- The initial field values set by `OBSCompanionTracker.__init__`
(lines 204-230), with pynput and pygame available and the default
configuration (`include_mouse_position = True`, gamepad enabled). -/
def init_state : TrackerState where
  recording := false
  start_time := none
  log_file := none
  current_log_path := none
  mouse_listener := false
  keyboard_listener := false
  gamepad_tracking := false
  last_mouse_pos := none
  event_count := 0
  mouse_count := 0
  keyboard_count := 0
  gamepad_count := 0
  include_mouse_position := true
  gamepad_enabled := true
  pynput_available := true
  pygame_available := true
  obs_connected := false
  closed_files := []

/-- Python's `str.startswith`, over the character lists of the strings
(core's `String.startsWith` is not kernel-reducible, so the embedding uses
the equivalent list form). -/
def starts_with (s p : String) : Bool := p.data.isPrefixOf s.data

/-- Embeds `OBSCompanionTracker.log_event` (lines 335-353).  If the log file is open
and `start_time` is set, it writes one record (`wfail = true` models the
`write`/`flush` raising, in which case nothing is appended and the exception
propagates: there is no try/except in this method), then increments
`event_count` and the per-category counter chosen by the
`startswith` chain on `event_type`.  Otherwise it does nothing. -/
def log_event (wfail : Bool) (now abs_now : Nat) (event_type : String)
    (details : EventDetails) (st : TrackerState) : Except Unit TrackerState :=
  match st.log_file, st.start_time with
  | some records, some t0 =>
      if wfail then .error ()
      else
        let entry : LogEntry :=
          { timestamp := (now : Int) - (t0 : Int), absolute_time := abs_now
            event_type := event_type, details := details }
        let st1 := { st with log_file := some (records ++ [entry])
                             event_count := st.event_count + 1 }
        .ok <|
          if starts_with event_type "Mouse" then
            { st1 with mouse_count := st1.mouse_count + 1 }
          else if starts_with event_type "Key" then
            { st1 with keyboard_count := st1.keyboard_count + 1 }
          else if starts_with event_type "gamepad" then
            { st1 with gamepad_count := st1.gamepad_count + 1 }
          else st1
  | _, _ => .ok st

/-- Embeds `OBSCompanionTracker.on_mouse_move` (lines 355-371).  Ignores the move
while not recording; otherwise, if a previous absolute position was observed,
computes the delta and emits a `MouseDelta` record only when it is non-zero in
some axis; in every recording case it then stores `(x, y)` as the last
observed position.  A raised write failure propagates, skipping the
`last_mouse_pos` update (line 371 is not reached). -/
def on_mouse_move (wfail : Bool) (now abs_now : Nat) (x y : Int)
    (st : TrackerState) : Except Unit TrackerState :=
  if !st.recording then .ok st
  else
    match st.last_mouse_pos with
    | some p =>
        let delta_x := x - p.1
        let delta_y := y - p.2
        if delta_x.natAbs > 0 || delta_y.natAbs > 0 then do
          let details := EventDetails.mouseDelta delta_x delta_y
            (if st.include_mouse_position then some (x, y) else none)
          let st1 ← log_event wfail now abs_now "MouseDelta" details st
          .ok { st1 with last_mouse_pos := some (x, y) }
        else .ok { st with last_mouse_pos := some (x, y) }
    | none => .ok { st with last_mouse_pos := some (x, y) }

/-- Embeds `OBSCompanionTracker.on_mouse_click` (lines 373-382). -/
def on_mouse_click (wfail : Bool) (now abs_now : Nat) (x y : Int)
    (button : String) (pressed : Bool) (st : TrackerState) :
    Except Unit TrackerState :=
  if !st.recording then .ok st
  else
    log_event wfail now abs_now "MouseClick"
      (.mouseClick button (if pressed then "pressed" else "released") x y) st

/-- Embeds `OBSCompanionTracker.on_key_press` (lines 384-397); `key_str` is the
already-resolved key identity string. -/
def on_key_press (wfail : Bool) (now abs_now : Nat) (key_str : String)
    (st : TrackerState) : Except Unit TrackerState :=
  if !st.recording then .ok st
  else log_event wfail now abs_now "KeyDown" (.keyInfo key_str) st

/-- Embeds `OBSCompanionTracker.on_key_release` (lines 399-412). -/
def on_key_release (wfail : Bool) (now abs_now : Nat) (key_str : String)
    (st : TrackerState) : Except Unit TrackerState :=
  if !st.recording then .ok st
  else log_event wfail now abs_now "KeyUp" (.keyInfo key_str) st

/-- Embeds `WorkingGamepadTracker.log_gamepad_event` (lines 98-101): forwards to the
parent's `log_event` with event type `"gamepad_" + event_type` only while the
parent is recording. -/
def log_gamepad_event (wfail : Bool) (now abs_now : Nat) (event_type : String)
    (data : String) (st : TrackerState) : Except Unit TrackerState :=
  if st.recording then
    log_event wfail now abs_now ("gamepad_" ++ event_type) (.gamepadData data) st
  else .ok st

/-- Which environment operations fail during `start_recording_sync`:
`open_fails` - `open(self.current_log_path, "w")` raises (line 423);
`metadata_write_fails` - the `SessionStart` write inside `log_event` raises
(line 442); `mouse_start_fails` / `keyboard_start_fails` - the corresponding
pynput `Listener.start()` raises (lines 461-462); `gamepad_start_ok` - the
return value of `WorkingGamepadTracker.start_tracking` (which catches its own
errors and returns a bool); `gamepad_count_val` - the value returned by
`get_gamepad_count` (line 439). -/
structure StartEnv where
  open_fails : Bool
  metadata_write_fails : Bool
  mouse_start_fails : Bool
  keyboard_start_fails : Bool
  gamepad_start_ok : Bool
  gamepad_count_val : Nat
  deriving DecidableEq, Repr

/-- The tail of `start_recording_sync` after both pynput listeners are
handled (lines 464-469): arm the gamepad tracker if enabled, set
`recording = True` and return `True`. -/
def start_finish (env : StartEnv) (st : TrackerState) : Bool × TrackerState :=
  let st := if st.gamepad_enabled then
      { st with gamepad_tracking := env.gamepad_start_ok }
    else st
  (true, { st with recording := true })

/-- Embeds `OBSCompanionTracker.start_recording_sync` (lines 414-473).  Returns
`False` immediately if already recording.  Otherwise runs the try-block step
by step: assign `current_log_path`, open the file, set `start_time`, write
the `SessionStart` record, reset `last_mouse_pos` and the counters, start the
mouse then the keyboard listener (when pynput is available), start gamepad
tracking (when enabled), set `recording = True`, return `True`.  If any step
raises, the `except` clause (lines 471-473) only prints and returns `False`:
the state reached so far is kept as is (no rollback in the source). -/
def start_recording_sync (env : StartEnv) (now abs_now : Nat) (path : Nat)
    (st : TrackerState) : Bool × TrackerState :=
  if st.recording then (false, st)
  else
    let st := { st with current_log_path := some path }
    if env.open_fails then (false, st)
    else
      let st := { st with log_file := some [], start_time := some now }
      let session_info := EventDetails.sessionStart abs_now st.obs_connected
        st.pynput_available st.gamepad_enabled st.pygame_available
        (if st.gamepad_enabled && st.pygame_available then
          some env.gamepad_count_val else none)
      match log_event env.metadata_write_fails now abs_now "SessionStart"
          session_info st with
      | .error _ => (false, st)
      | .ok st =>
        let st := { st with last_mouse_pos := none, event_count := 0
                            mouse_count := 0, keyboard_count := 0
                            gamepad_count := 0 }
        if st.pynput_available then
          if env.mouse_start_fails then (false, st)
          else
            let st := { st with mouse_listener := true }
            if env.keyboard_start_fails then (false, st)
            else start_finish env { st with keyboard_listener := true }
        else start_finish env st

/-- The tail of `stop_recording` after the `SessionEnd` write (lines
491-504): stop and clear both pynput listeners, stop gamepad tracking, close
the log file (moving its records to `closed_files`) and clear `log_file`. -/
def stop_finish (st : TrackerState) : TrackerState :=
  let st := { st with mouse_listener := false, keyboard_listener := false
                      gamepad_tracking := false }
  match st.log_file with
  | some records =>
      { st with log_file := none, closed_files := st.closed_files ++ [records] }
  | none => st

/-- Embeds `OBSCompanionTracker.stop_recording` (lines 475-509).  No-op unless
recording; otherwise clears `recording` first, then (inside try) writes the
`SessionEnd` record carrying the current counters and duration when a log
file is open, stops the listeners and closes the file.  If the `SessionEnd`
write raises, the `except` clause (lines 508-509) only prints: the listeners
are then not stopped and the file is not closed. -/
def stop_recording (wfail : Bool) (now abs_now : Nat) (st : TrackerState) :
    TrackerState :=
  if !st.recording then st
  else
    let st := { st with recording := false }
    match st.log_file with
    | some _ =>
        match log_event wfail now abs_now "SessionEnd"
            (.sessionEnd st.event_count st.mouse_count st.keyboard_count
              st.gamepad_count
              (match st.start_time with
               | some t0 => (now : Int) - (t0 : Int)
               | none => 0)) st with
        | .error _ => st
        | .ok st1 => stop_finish st1
    | none => stop_finish st

/-- A `StartEnv` in which every environment step succeeds. -/
def env_ok : StartEnv where
  open_fails := false
  metadata_write_fails := false
  mouse_start_fails := false
  keyboard_start_fails := false
  gamepad_start_ok := true
  gamepad_count_val := 1

/-! ### Sequences of Start/Stop calls -/

/-- One call on the session state machine: either `start_recording_sync`
(with its failure environment, clock readings and file path) or
`stop_recording` (with a flag saying whether the `SessionEnd` write raises,
and its clock readings). -/
inductive SessionOp where
  | start (env : StartEnv) (now abs_now path : Nat)
  | stop (wfail : Bool) (now abs_now : Nat)
  deriving DecidableEq, Repr

/-- Execute one `SessionOp` on the tracker, discarding the boolean result of
`start_recording_sync`. -/
def run_op (op : SessionOp) (st : TrackerState) : TrackerState :=
  match op with
  | .start env now abs_now path => (start_recording_sync env now abs_now path st).2
  | .stop wfail now abs_now => stop_recording wfail now abs_now st

/-- Execute a sequence of Start/Stop calls left to right. -/
def run_ops (l : List SessionOp) (st : TrackerState) : TrackerState :=
  l.foldl (fun s op => run_op op s) st

/-! ### Input events delivered while a session is live -/

/-- The gamepad event kinds emitted by `WorkingGamepadTracker.gamepad_loop`
(lines 112-161): the `log_gamepad_event` call sites use exactly the literals
`"button"`, `"stick"`, `"trigger"`, `"dpad"`. -/
inductive GamepadEventKind where
  | button
  | stick
  | trigger
  | dpad
  deriving DecidableEq, Repr

/-- The string the gamepad loop passes as `event_type`. -/
def GamepadEventKind.tag : GamepadEventKind → String
  | .button => "button"
  | .stick => "stick"
  | .trigger => "trigger"
  | .dpad => "dpad"

/-- One raw event delivered by an input source to its tracker callback,
with the clock readings that `log_event` would observe for it. -/
inductive InputEvent where
  | mouseMove (now abs_now : Nat) (x y : Int)
  | mouseClick (now abs_now : Nat) (x y : Int) (button : String) (pressed : Bool)
  | keyPress (now abs_now : Nat) (key_str : String)
  | keyRelease (now abs_now : Nat) (key_str : String)
  | gamepadEvent (now abs_now : Nat) (kind : GamepadEventKind) (data : String)
  deriving DecidableEq, Repr

/-- Deliver one raw event through the corresponding handler, with the log
write succeeding.  (With `wfail = false` no handler can raise, so the
`.error` fallback is dead code; `log_event_ok_total` below proves it.) -/
def deliver (e : InputEvent) (st : TrackerState) : TrackerState :=
  match
    (match e with
     | .mouseMove now abs_now x y => on_mouse_move false now abs_now x y st
     | .mouseClick now abs_now x y b p => on_mouse_click false now abs_now x y b p st
     | .keyPress now abs_now k => on_key_press false now abs_now k st
     | .keyRelease now abs_now k => on_key_release false now abs_now k st
     | .gamepadEvent now abs_now kind d =>
         log_gamepad_event false now abs_now kind.tag d st) with
  | .ok st1 => st1
  | .error _ => st

/-- Deliver a list of raw events in order. -/
def deliver_all (events : List InputEvent) (st : TrackerState) : TrackerState :=
  events.foldl (fun s e => deliver e s) st

/-- Number of records classified as mouse events by `log_event`'s
`startswith` chain. -/
def count_mouse (l : List LogEntry) : Nat :=
  l.countP (fun r => starts_with r.event_type "Mouse")

/-- Number of records classified as keyboard events (the `elif` branch:
not a mouse event, and the type starts with `"Key"`). -/
def count_keyboard (l : List LogEntry) : Nat :=
  l.countP (fun r => !starts_with r.event_type "Mouse" && starts_with r.event_type "Key")

/-- Number of records classified as gamepad events (the final `elif`
branch). -/
def count_gamepad (l : List LogEntry) : Nat :=
  l.countP (fun r => !starts_with r.event_type "Mouse" &&
    !starts_with r.event_type "Key" && starts_with r.event_type "gamepad")

/-- The `MouseDelta` records of a record list. -/
def mouse_delta_records (l : List LogEntry) : List LogEntry :=
  l.filter (fun r => r.event_type = "MouseDelta")

/-- Number of `SessionEnd` records in a record list. -/
def count_session_end (l : List LogEntry) : Nat :=
  l.countP (fun r => r.event_type == "SessionEnd")

/-! ### The OBS monitor loop -/

/-- Result of one `get_record_status` poll: `ok active` is a successful
request with `output_active = active`; `err` models the request raising
(connection error, timeout). -/
inductive PollResult where
  | ok (active : Bool)
  | err
  deriving DecidableEq, Repr

/-- A session start or stop fired by the monitor loop. -/
inductive MonitorAction where
  | started
  | stopped
  deriving DecidableEq, Repr

/-- One iteration's inputs for the monitor loop: the poll outcome plus the
environment and clock readings any fired `start_recording_sync` /
`stop_recording` call would use. -/
structure MonitorPoll where
  res : PollResult
  env : StartEnv
  now : Nat
  abs_now : Nat
  path : Nat
  deriving Repr

/-- Outcome of one monitor-loop iteration: the new `last_recording_state`,
the new tracker state, the session actions fired (at most one) and the
`time.sleep` duration taken, in milliseconds. -/
structure MonStepResult where
  last : Bool
  st : TrackerState
  actions : List MonitorAction
  sleep_ms : Nat
  deriving Repr

/-- One iteration of `OBSCompanionTracker._obs_monitor_loop` (lines
313-333) with the client present.  On a successful poll: if the polled state
differs from `last_recording_state`, fire start (state became true) or stop
(state became false), then update `last_recording_state`; then sleep 0.5 s.
If the poll raises, the except clause sleeps 2 s and
`last_recording_state` is left unchanged. -/
def monitor_step (p : MonitorPoll) (last : Bool) (st : TrackerState) :
    MonStepResult :=
  match p.res with
  | .err => { last := last, st := st, actions := [], sleep_ms := 2000 }
  | .ok is_recording =>
      if is_recording != last then
        if is_recording then
          { last := is_recording
            st := (start_recording_sync p.env p.now p.abs_now p.path st).2
            actions := [.started], sleep_ms := 500 }
        else
          { last := is_recording
            st := stop_recording false p.now p.abs_now st
            actions := [.stopped], sleep_ms := 500 }
      else { last := last, st := st, actions := [], sleep_ms := 500 }

/-- Outcome of a run of monitor-loop iterations: final
`last_recording_state`, final tracker state, all actions fired in order, and
the per-iteration sleep durations. -/
structure MonRunResult where
  last : Bool
  st : TrackerState
  actions : List MonitorAction
  sleeps : List Nat
  deriving Repr

/-- Run the monitor loop over a list of poll iterations. -/
def monitor_run (polls : List MonitorPoll) (last : Bool) (st : TrackerState) :
    MonRunResult :=
  match polls with
  | [] => { last := last, st := st, actions := [], sleeps := [] }
  | p :: rest =>
      let r := monitor_step p last st
      let rr := monitor_run rest r.last r.st
      { last := rr.last, st := rr.st, actions := r.actions ++ rr.actions
        sleeps := r.sleep_ms :: rr.sleeps }

/-- The states observed by the successful polls of a run, in order. -/
def poll_states (polls : List MonitorPoll) : List Bool :=
  polls.foldr
    (fun p acc => match p.res with | .ok b => b :: acc | .err => acc) []

/-- The edge actions a state sequence should trigger: one `started` per
false-to-true transition, one `stopped` per true-to-false transition,
relative to the running last-seen state. -/
def edge_actions (last : Bool) : List Bool → List MonitorAction
  | [] => []
  | b :: bs =>
      (if b != last then
        (if b then [MonitorAction.started] else [MonitorAction.stopped])
       else []) ++ edge_actions b bs

/-! ### Interleaving model of `log_event`'s critical section

`log_event`'s effect on shared state is the sequence: append one record to
the file (lines 344-345), then `self.event_count += 1` (line 347), which in
CPython is a load of the attribute followed by a store of the incremented
value — two separate interpreter steps between which a thread switch can
occur.  There is no lock anywhere in `log_event`, so concurrent invocations
from the mouse-, keyboard- and gamepad-threads interleave these steps
freely.  The model below runs two such invocations under an arbitrary
schedule. -/

/-- An atomic interpreter step of `log_event`'s shared-state mutation:
append the record (write+flush), load `event_count`, store the incremented
value. -/
inductive MicroStep where
  | append
  | read_count
  | write_count
  deriving DecidableEq, Repr

/-- The step sequence one `log_event` invocation performs on shared state. -/
def log_event_steps : List MicroStep := [.append, .read_count, .write_count]

/-- The shared state the steps act on: how many records the file holds and
the `event_count` attribute. -/
structure SharedCounters where
  records : Nat
  event_count : Nat
  deriving DecidableEq, Repr

/-- A thread executing `log_event`: its remaining steps and its local
register holding the loaded counter value. -/
structure ThreadTask where
  program : List MicroStep
  reg : Nat
  deriving DecidableEq, Repr

/-- Execute one micro step on the shared state, returning the new shared
state and the thread's new register value. -/
def exec_micro (s : SharedCounters) (reg : Nat) :
    MicroStep → SharedCounters × Nat
  | .append => ({ s with records := s.records + 1 }, reg)
  | .read_count => (s, s.event_count)
  | .write_count => ({ s with event_count := reg + 1 }, reg)

/-- Run two threads under a schedule: each `false` entry lets thread A take
its next step, each `true` entry thread B; a scheduled thread with no steps
left is skipped. -/
def run_sched : List Bool → SharedCounters → ThreadTask → ThreadTask →
    SharedCounters
  | [], s, _, _ => s
  | b :: rest, s, tA, tB =>
      if b then
        match tB.program with
        | [] => run_sched rest s tA tB
        | step :: more =>
            let r := exec_micro s tB.reg step
            run_sched rest r.1 tA { program := more, reg := r.2 }
      else
        match tA.program with
        | [] => run_sched rest s tA tB
        | step :: more =>
            let r := exec_micro s tA.reg step
            run_sched rest r.1 { program := more, reg := r.2 } tB

/-- Two concurrent `log_event` invocations on fresh counters, under the
given schedule. -/
def run_two_log_events (sched : List Bool) : SharedCounters :=
  run_sched sched { records := 0, event_count := 0 }
    { program := log_event_steps, reg := 0 }
    { program := log_event_steps, reg := 0 }

/-! ## Helper lemmas -/

/-- The record `log_event` builds at clocks `now`, `abs_now` for a session
started at monotonic time `t0`. -/
def mk_entry (now abs_now t0 : Nat) (ty : String) (d : EventDetails) : LogEntry :=
  { timestamp := (now : Int) - (t0 : Int), absolute_time := abs_now
    event_type := ty, details := d }

@[simp] theorem sw_mouse_delta : starts_with "MouseDelta" "Mouse" = true := rfl

@[simp] theorem sw_mouse_click : starts_with "MouseClick" "Mouse" = true := rfl

@[simp] theorem sw_keydown_mouse : starts_with "KeyDown" "Mouse" = false := rfl

@[simp] theorem sw_keydown_key : starts_with "KeyDown" "Key" = true := rfl

@[simp] theorem sw_keyup_mouse : starts_with "KeyUp" "Mouse" = false := rfl

@[simp] theorem sw_keyup_key : starts_with "KeyUp" "Key" = true := rfl

@[simp] theorem sw_sstart_mouse : starts_with "SessionStart" "Mouse" = false := rfl

@[simp] theorem sw_sstart_key : starts_with "SessionStart" "Key" = false := rfl

@[simp] theorem sw_sstart_gamepad :
    starts_with "SessionStart" "gamepad" = false := rfl

@[simp] theorem sw_send_mouse : starts_with "SessionEnd" "Mouse" = false := rfl

@[simp] theorem sw_send_key : starts_with "SessionEnd" "Key" = false := rfl

@[simp] theorem sw_send_gamepad :
    starts_with "SessionEnd" "gamepad" = false := rfl

@[simp] theorem sw_gamepad_tag_mouse (k : GamepadEventKind) :
    starts_with ("gamepad_" ++ k.tag) "Mouse" = false := by
  cases k <;> rfl

@[simp] theorem sw_gamepad_tag_key (k : GamepadEventKind) :
    starts_with ("gamepad_" ++ k.tag) "Key" = false := by
  cases k <;> rfl

@[simp] theorem sw_gamepad_tag_gamepad (k : GamepadEventKind) :
    starts_with ("gamepad_" ++ k.tag) "gamepad" = true := by
  cases k <;> rfl

theorem log_event_write (now abs_now : Nat) (ty : String) (d : EventDetails)
    (st : TrackerState) (recs : List LogEntry) (t0 : Nat)
    (hf : st.log_file = some recs) (ht : st.start_time = some t0) :
    log_event false now abs_now ty d st = .ok { st with
      log_file := some (recs ++ [mk_entry now abs_now t0 ty d])
      event_count := st.event_count + 1
      mouse_count := st.mouse_count + (if starts_with ty "Mouse" then 1 else 0)
      keyboard_count := st.keyboard_count +
        (if !starts_with ty "Mouse" && starts_with ty "Key" then 1 else 0)
      gamepad_count := st.gamepad_count +
        (if !starts_with ty "Mouse" && !starts_with ty "Key" &&
          starts_with ty "gamepad" then 1 else 0) } := by
  simp only [log_event, hf, ht, mk_entry]
  by_cases hm : starts_with ty "Mouse" <;>
    by_cases hk : starts_with ty "Key" <;>
      by_cases hg : starts_with ty "gamepad" <;>
        simp [hm, hk, hg]

theorem log_event_skip (wfail : Bool) (now abs_now : Nat) (ty : String)
    (d : EventDetails) (st : TrackerState) (hf : st.log_file = none) :
    log_event wfail now abs_now ty d st = .ok st := by
  simp [log_event, hf]

theorem count_mouse_append (l : List LogEntry) (e : LogEntry) :
    count_mouse (l ++ [e]) =
      count_mouse l + (if starts_with e.event_type "Mouse" then 1 else 0) := by
  simp [count_mouse, List.countP_append, List.countP_cons]

theorem count_keyboard_append (l : List LogEntry) (e : LogEntry) :
    count_keyboard (l ++ [e]) = count_keyboard l +
      (if !starts_with e.event_type "Mouse" && starts_with e.event_type "Key"
        then 1 else 0) := by
  simp [count_keyboard, List.countP_append, List.countP_cons]

theorem count_gamepad_append (l : List LogEntry) (e : LogEntry) :
    count_gamepad (l ++ [e]) = count_gamepad l +
      (if !starts_with e.event_type "Mouse" && !starts_with e.event_type "Key" &&
          starts_with e.event_type "gamepad" then 1 else 0) := by
  simp [count_gamepad, List.countP_append, List.countP_cons]

/-- Component description of a successful `start_recording_sync`: the session
is recording, the clocks and reset fields are set, and the freshly opened log
file holds exactly the `SessionStart` record. -/
theorem start_true_spec (env : StartEnv) (now abs_now path : Nat)
    (st : TrackerState)
    (hsucc : (start_recording_sync env now abs_now path st).1 = true) :
    (start_recording_sync env now abs_now path st).2.recording = true ∧
    (start_recording_sync env now abs_now path st).2.start_time = some now ∧
    (start_recording_sync env now abs_now path st).2.last_mouse_pos = none ∧
    (start_recording_sync env now abs_now path st).2.event_count = 0 ∧
    (start_recording_sync env now abs_now path st).2.mouse_count = 0 ∧
    (start_recording_sync env now abs_now path st).2.keyboard_count = 0 ∧
    (start_recording_sync env now abs_now path st).2.gamepad_count = 0 ∧
    (start_recording_sync env now abs_now path st).2.closed_files =
      st.closed_files ∧
    ∃ e : LogEntry, e.event_type = "SessionStart" ∧
      (start_recording_sync env now abs_now path st).2.log_file = some [e] := by
  by_cases hr : st.recording
  · simp [start_recording_sync, hr] at hsucc
  · by_cases ho : env.open_fails
    · simp [start_recording_sync, hr, ho] at hsucc
    · by_cases hm : env.metadata_write_fails
      · simp [start_recording_sync, log_event, hr, ho, hm] at hsucc
      · by_cases hp : st.pynput_available
        · by_cases hms : env.mouse_start_fails
          · simp [start_recording_sync, log_event, hr, ho, hm, hp, hms] at hsucc
          · by_cases hks : env.keyboard_start_fails
            · simp [start_recording_sync, log_event, hr, ho, hm, hp, hms, hks]
                at hsucc
            · by_cases hg : st.gamepad_enabled <;>
                simp [start_recording_sync, log_event, start_finish,
                  hr, ho, hm, hp, hms, hks, hg]
        · by_cases hg : st.gamepad_enabled <;>
            simp [start_recording_sync, log_event, start_finish,
              hr, ho, hm, hp, hg]

/-- The `SessionEnd` record `stop_recording` writes from state `st` at
clocks `now`, `abs_now`. -/
def end_entry (now abs_now t0 : Nat) (st : TrackerState) : LogEntry :=
  mk_entry now abs_now t0 "SessionEnd"
    (.sessionEnd st.event_count st.mouse_count st.keyboard_count
      st.gamepad_count ((now : Int) - (t0 : Int)))

/-- A full successful stop: writes the `SessionEnd` record, disarms all
sources, closes the file into `closed_files`. -/
theorem stop_spec (now abs_now : Nat) (st : TrackerState)
    (recs : List LogEntry) (t0 : Nat) (hrec : st.recording = true)
    (hf : st.log_file = some recs) (ht : st.start_time = some t0) :
    stop_recording false now abs_now st = { st with
      recording := false
      mouse_listener := false, keyboard_listener := false
      gamepad_tracking := false
      log_file := none
      event_count := st.event_count + 1
      closed_files := st.closed_files ++ [recs ++ [end_entry now abs_now t0 st]] } := by
  have hw := log_event_write now abs_now "SessionEnd"
    (.sessionEnd st.event_count st.mouse_count st.keyboard_count
      st.gamepad_count ((now : Int) - (t0 : Int)))
    { st with recording := false } recs t0 (by simp [hf]) (by simp [ht])
  simp only [stop_recording, hrec, hf, ht, Bool.not_true, Bool.false_eq_true,
    if_false, end_entry] at *
  rw [hw]
  simp [stop_finish]

/-- Calling `stop_recording` when not recording is a no-op. -/
theorem stop_noop (wfail : Bool) (now abs_now : Nat) (st : TrackerState)
    (h : st.recording = false) : stop_recording wfail now abs_now st = st := by
  simp [stop_recording, h]

/-! ### The in-session invariant -/

/-- Invariant holding from just after a successful start until the stop:
the session is recording with a start time, the closed-file list is still
`cf0`, the open file is `head` (the `SessionStart` record) followed by the
event records `mid`, and the four counters equal the total and per-category
counts of `mid`. -/
def session_inv (cf0 : List (List LogEntry)) (head : LogEntry)
    (st : TrackerState) : Prop :=
  st.recording = true ∧ st.start_time.isSome ∧ st.closed_files = cf0 ∧
  ∃ mid, st.log_file = some (head :: mid) ∧
    st.event_count = mid.length ∧
    st.mouse_count = count_mouse mid ∧
    st.keyboard_count = count_keyboard mid ∧
    st.gamepad_count = count_gamepad mid

theorem session_inv_log_event (cf0 : List (List LogEntry)) (head : LogEntry)
    (now abs_now : Nat) (ty : String) (d : EventDetails)
    (st st1 : TrackerState) (h : session_inv cf0 head st)
    (hw : log_event false now abs_now ty d st = .ok st1) :
    session_inv cf0 head st1 := by
  obtain ⟨hrec, hts, hcf, mid, hf, he, hm, hk, hg⟩ := h
  obtain ⟨t0, ht⟩ := Option.isSome_iff_exists.mp hts
  rw [log_event_write now abs_now ty d st (head :: mid) t0 hf ht] at hw
  cases hw
  refine ⟨hrec, by simp [ht], hcf, mid ++ [mk_entry now abs_now t0 ty d], ?_⟩
  simp [he, hm, hk, hg, count_mouse_append, count_keyboard_append,
    count_gamepad_append, mk_entry]

theorem session_inv_set_pos (cf0 : List (List LogEntry)) (head : LogEntry)
    (st : TrackerState) (p : Option (Int × Int)) (h : session_inv cf0 head st) :
    session_inv cf0 head { st with last_mouse_pos := p } := by
  obtain ⟨hrec, hts, hcf, mid, hf, he, hm, hk, hg⟩ := h
  exact ⟨hrec, hts, hcf, mid, hf, he, hm, hk, hg⟩

theorem except_bind_ok {a : Type} {b : Type} {g : Type} (x : a)
    (f : a → Except g b) : (Except.ok x : Except g a) >>= f = f x := rfl

theorem session_inv_deliver (cf0 : List (List LogEntry)) (head : LogEntry)
    (e : InputEvent) (st : TrackerState) (h : session_inv cf0 head st) :
    session_inv cf0 head (deliver e st) := by
  have hrec : st.recording = true := h.1
  obtain ⟨t0, ht⟩ := Option.isSome_iff_exists.mp h.2.1
  obtain ⟨mid, hf, -, -, -, -⟩ := h.2.2.2
  cases e with
  | mouseMove now abs_now x y =>
      cases hp : st.last_mouse_pos with
      | none =>
          have hcall : on_mouse_move false now abs_now x y st =
              .ok { st with last_mouse_pos := some (x, y) } := by
            simp [on_mouse_move, hrec, hp]
          simp only [deliver, hcall]
          exact session_inv_set_pos cf0 head st _ h
      | some p =>
          by_cases hd : ((x - p.1).natAbs > 0 || (y - p.2).natAbs > 0) = true
          · have hw := log_event_write now abs_now "MouseDelta"
              (.mouseDelta (x - p.1) (y - p.2)
                (if st.include_mouse_position then some (x, y) else none))
              st (head :: mid) t0 hf ht
            have hcall : on_mouse_move false now abs_now x y st =
                (log_event false now abs_now "MouseDelta"
                  (.mouseDelta (x - p.1) (y - p.2)
                    (if st.include_mouse_position then some (x, y) else none))
                  st) >>= fun st1 => .ok { st1 with last_mouse_pos := some (x, y) } := by
              simp only [on_mouse_move, hrec, Bool.not_true, Bool.false_eq_true,
                if_false, hp, hd, if_true]
            rw [hw, except_bind_ok] at hcall
            simp only [deliver, hcall]
            exact session_inv_set_pos cf0 head _ _
              (session_inv_log_event cf0 head now abs_now _ _ st _ h hw)
          · have hcall : on_mouse_move false now abs_now x y st =
                .ok { st with last_mouse_pos := some (x, y) } := by
              simp only [on_mouse_move, hrec, Bool.not_true, Bool.false_eq_true,
                if_false, hp, hd, if_false]
            simp only [deliver, hcall]
            exact session_inv_set_pos cf0 head st _ h
  | mouseClick now abs_now x y b pr =>
      have hw := log_event_write now abs_now "MouseClick"
        (.mouseClick b (if pr then "pressed" else "released") x y)
        st (head :: mid) t0 hf ht
      have hcall : on_mouse_click false now abs_now x y b pr st =
          log_event false now abs_now "MouseClick"
            (.mouseClick b (if pr then "pressed" else "released") x y) st := by
        simp [on_mouse_click, hrec]
      rw [hw] at hcall
      simp only [deliver, hcall]
      exact session_inv_log_event cf0 head now abs_now _ _ st _ h hw
  | keyPress now abs_now k =>
      have hw := log_event_write now abs_now "KeyDown" (.keyInfo k)
        st (head :: mid) t0 hf ht
      have hcall : on_key_press false now abs_now k st =
          log_event false now abs_now "KeyDown" (.keyInfo k) st := by
        simp [on_key_press, hrec]
      rw [hw] at hcall
      simp only [deliver, hcall]
      exact session_inv_log_event cf0 head now abs_now _ _ st _ h hw
  | keyRelease now abs_now k =>
      have hw := log_event_write now abs_now "KeyUp" (.keyInfo k)
        st (head :: mid) t0 hf ht
      have hcall : on_key_release false now abs_now k st =
          log_event false now abs_now "KeyUp" (.keyInfo k) st := by
        simp [on_key_release, hrec]
      rw [hw] at hcall
      simp only [deliver, hcall]
      exact session_inv_log_event cf0 head now abs_now _ _ st _ h hw
  | gamepadEvent now abs_now kind d =>
      have hw := log_event_write now abs_now ("gamepad_" ++ kind.tag)
        (.gamepadData d) st (head :: mid) t0 hf ht
      have hcall : log_gamepad_event false now abs_now kind.tag d st =
          log_event false now abs_now ("gamepad_" ++ kind.tag)
            (.gamepadData d) st := by
        simp [log_gamepad_event, hrec]
      rw [hw] at hcall
      simp only [deliver, hcall]
      exact session_inv_log_event cf0 head now abs_now _ _ st _ h hw

theorem session_inv_deliver_all (cf0 : List (List LogEntry)) (head : LogEntry)
    (events : List InputEvent) (st : TrackerState)
    (h : session_inv cf0 head st) :
    session_inv cf0 head (deliver_all events st) := by
  induction events generalizing st with
  | nil => exact h
  | cons e rest ih =>
      exact ih (deliver e st) (session_inv_deliver cf0 head e st h)

/-! ### Start/Stop sequence lemmas -/

theorem start_while_recording (env : StartEnv) (now abs_now path : Nat)
    (st : TrackerState) (h : st.recording = true) :
    start_recording_sync env now abs_now path st = (false, st) := by
  simp [start_recording_sync, h]

theorem start_fst_true_idle (env : StartEnv) (now abs_now path : Nat)
    (st : TrackerState)
    (hsucc : (start_recording_sync env now abs_now path st).1 = true) :
    st.recording = false := by
  by_cases hr : st.recording
  · rw [start_while_recording env now abs_now path st hr] at hsucc
    exact absurd hsucc (by simp)
  · simpa using hr

theorem run_ops_nil (st : TrackerState) : run_ops [] st = st := rfl

theorem run_ops_cons (op : SessionOp) (l : List SessionOp) (st : TrackerState) :
    run_ops (op :: l) st = run_ops l (run_op op st) := rfl

/-- From a Recording state, the only way a Start/Stop call sequence can end
up not Recording is that some `stop` call in it executed while the state was
still Recording. -/
theorem exit_requires_stop (l : List SessionOp) (st : TrackerState)
    (hrec : st.recording = true) (hexit : (run_ops l st).recording = false) :
    ∃ l1 w now abs_now l2, l = l1 ++ SessionOp.stop w now abs_now :: l2 ∧
      (run_ops l1 st).recording = true := by
  induction l generalizing st with
  | nil =>
      rw [run_ops_nil] at hexit
      rw [hrec] at hexit
      exact absurd hexit (by simp)
  | cons op rest ih =>
      cases op with
      | start env now abs_now path =>
          have hkeep : run_op (SessionOp.start env now abs_now path) st = st := by
            simp [run_op, start_while_recording env now abs_now path st hrec]
          rw [run_ops_cons, hkeep] at hexit
          obtain ⟨l1, w, n1, a1, l2, hl, hr⟩ := ih st hrec hexit
          exact ⟨SessionOp.start env now abs_now path :: l1, w, n1, a1, l2,
            by rw [hl]; rfl, by rw [run_ops_cons, hkeep]; exact hr⟩
      | stop w now abs_now =>
          exact ⟨[], w, now, abs_now, rest, rfl, by rw [run_ops_nil]; exact hrec⟩

/-- A concrete recording-session state: the tracker right after a successful
`start_recording_sync` from the initial state. -/
def rec_state : TrackerState := (start_recording_sync env_ok 5 50 3 init_state).2

/-! ## Claims -/

/-- C1: calling `start_recording_sync` while a session is already Recording
returns `False` and leaves the whole session state unchanged; consequently,
in any sequence of Start/Stop calls, between two successful starts there is
a stop call that executed while the state was Recording (the state machine
never enters Recording twice without an intervening Stop). -/
theorem c1_no_double_start :
    (∀ (env : StartEnv) (now abs_now path : Nat) (st : TrackerState),
      st.recording = true →
      start_recording_sync env now abs_now path st = (false, st)) ∧
    (∀ (l1 l2 : List SessionOp) (env1 env2 : StartEnv)
      (n1 a1 p1 n2 a2 p2 : Nat) (st0 : TrackerState),
      (start_recording_sync env1 n1 a1 p1 (run_ops l1 st0)).1 = true →
      (start_recording_sync env2 n2 a2 p2
        (run_ops l2 (start_recording_sync env1 n1 a1 p1 (run_ops l1 st0)).2)).1
          = true →
      ∃ l2a w now abs_now l2b,
        l2 = l2a ++ SessionOp.stop w now abs_now :: l2b ∧
        (run_ops l2a
          (start_recording_sync env1 n1 a1 p1 (run_ops l1 st0)).2).recording
            = true) := by
  constructor
  · intro env now abs_now path st h
    exact start_while_recording env now abs_now path st h
  · intro l1 l2 env1 env2 n1 a1 p1 n2 a2 p2 st0 h1 h2
    have hs1 : (start_recording_sync env1 n1 a1 p1 (run_ops l1 st0)).2.recording
        = true := (start_true_spec env1 n1 a1 p1 (run_ops l1 st0) h1).1
    have hidle := start_fst_true_idle env2 n2 a2 p2 _ h2
    exact exit_requires_stop l2 _ hs1 hidle

/-- Witness for C1 at concrete inputs: a second start while recording is
rejected unchanged, and in the run `start; stop; start` the intervening
effective stop is found. -/
theorem c1_no_double_start_witness :
    start_recording_sync env_ok 0 0 0 rec_state = (false, rec_state) ∧
    ∃ l2a w now abs_now l2b,
      ([SessionOp.stop false 7 70] : List SessionOp) =
        l2a ++ SessionOp.stop w now abs_now :: l2b ∧
      (run_ops l2a
        (start_recording_sync env_ok 5 50 3 (run_ops [] init_state)).2).recording
          = true :=
  ⟨c1_no_double_start.1 env_ok 0 0 0 rec_state rfl,
   c1_no_double_start.2 [] [SessionOp.stop false 7 70] env_ok env_ok
     5 50 3 9 90 4 init_state rfl rfl⟩

/-- C2: for a session successfully started and then stopped, the closed log
file is the `SessionStart` record, then the event records `mid`, then a
`SessionEnd` record whose `total_events`, `mouse_events`, `keyboard_events`
and `gamepad_events` fields equal the total and per-category counts of
`mid`. -/
theorem c2_session_end_counters (env : StartEnv) (now abs_now path : Nat)
    (st0 : TrackerState) (events : List InputEvent) (n2 a2 : Nat)
    (hsucc : (start_recording_sync env now abs_now path st0).1 = true) :
    ∃ startRec mid endRec,
      (stop_recording false n2 a2
        (deliver_all events
          (start_recording_sync env now abs_now path st0).2)).closed_files =
        st0.closed_files ++ [startRec :: (mid ++ [endRec])] ∧
      startRec.event_type = "SessionStart" ∧
      endRec.event_type = "SessionEnd" ∧
      ∃ dur, endRec.details = EventDetails.sessionEnd mid.length
        (count_mouse mid) (count_keyboard mid) (count_gamepad mid) dur := by
  obtain ⟨hrec1, hts1, -, he0, hm0, hk0, hg0, hcf, e, hety, hfile⟩ :=
    start_true_spec env now abs_now path st0 hsucc
  have hinv : session_inv st0.closed_files e
      (start_recording_sync env now abs_now path st0).2 :=
    ⟨hrec1, by rw [hts1]; rfl, hcf, [], by simpa using hfile,
      by simpa using he0, by simpa [count_mouse] using hm0,
      by simpa [count_keyboard] using hk0, by simpa [count_gamepad] using hg0⟩
  have hinv2 := session_inv_deliver_all st0.closed_files e events _ hinv
  obtain ⟨hrecF, htsF, hcfF, mid, hfF, heF, hmF, hkF, hgF⟩ := hinv2
  obtain ⟨t0, htF⟩ := Option.isSome_iff_exists.mp htsF
  have hstop := stop_spec n2 a2 _ (e :: mid) t0 hrecF hfF htF
  refine ⟨e, mid,
    end_entry n2 a2 t0 (deliver_all events
      (start_recording_sync env now abs_now path st0).2), ?_, hety, rfl, ?_⟩
  · rw [hstop]
    simp [hcfF]
  · exact ⟨(n2 : Int) - (t0 : Int),
      by simp [end_entry, mk_entry, heF, hmF, hkF, hgF]⟩

/-- Witness for C2: a concrete session with two mouse moves, a click, two
key events and a gamepad event. -/
theorem c2_session_end_counters_witness :
    ∃ startRec mid endRec,
      (stop_recording false 9 90
        (deliver_all
          [.mouseMove 1 11 0 0, .mouseMove 2 12 4 3,
           .mouseClick 3 13 4 3 "left" true, .keyPress 4 14 "a",
           .keyRelease 5 15 "a", .gamepadEvent 6 16 .button "a_button"]
          (start_recording_sync env_ok 0 10 0 init_state).2)).closed_files =
        init_state.closed_files ++ [startRec :: (mid ++ [endRec])] ∧
      startRec.event_type = "SessionStart" ∧
      endRec.event_type = "SessionEnd" ∧
      ∃ dur, endRec.details = EventDetails.sessionEnd mid.length
        (count_mouse mid) (count_keyboard mid) (count_gamepad mid) dur :=
  c2_session_end_counters env_ok 0 10 0 init_state
    [.mouseMove 1 11 0 0, .mouseMove 2 12 4 3,
     .mouseClick 3 13 4 3 "left" true, .keyPress 4 14 "a",
     .keyRelease 5 15 "a", .gamepadEvent 6 16 .button "a_button"] 9 90 rfl

/-- C3 counterexample: `start_recording_sync` does not roll back on
failure.  If the `SessionStart` metadata write raises after the log file
was opened, the call returns `False` but the opened log file is left open
(`log_file` is still `some`, never closed); if the keyboard listener's
`start()` raises after the mouse listener started, the call returns `False`
but the mouse listener is left armed and the file left open.  Both refute
"any opened log file is closed, any sources already armed are disarmed". -/
theorem c3_no_rollback_counterexample :
    ((start_recording_sync { env_ok with metadata_write_fails := true }
        0 0 0 init_state).1 = false ∧
     (start_recording_sync { env_ok with metadata_write_fails := true }
        0 0 0 init_state).2.log_file = some []) ∧
    ((start_recording_sync { env_ok with keyboard_start_fails := true }
        0 0 0 init_state).1 = false ∧
     (start_recording_sync { env_ok with keyboard_start_fails := true }
        0 0 0 init_state).2.mouse_listener = true ∧
     (start_recording_sync { env_ok with keyboard_start_fails := true }
        0 0 0 init_state).2.log_file.isSome = true) :=
  ⟨⟨rfl, rfl⟩, rfl, rfl, rfl⟩

/-- C3 (amended): if opening the log file fails, `start_recording_sync`
surfaces the failure and changes nothing but `current_log_path` — no file
open, no source armed, state still Idle.  Any failing start leaves
`recording` unchanged.  But for later failing steps there is no rollback:
if the metadata write fails the opened (empty) file stays open and no
listener state changes; if the keyboard listener start fails the
already-armed mouse listener stays armed and the file stays open. -/
theorem c3_start_failure_amended :
    (∀ (env : StartEnv) (now abs_now path : Nat) (st : TrackerState),
      st.recording = false → env.open_fails = true →
      start_recording_sync env now abs_now path st =
        (false, { st with current_log_path := some path })) ∧
    (∀ (env : StartEnv) (now abs_now path : Nat) (st : TrackerState),
      (start_recording_sync env now abs_now path st).1 = false →
      (start_recording_sync env now abs_now path st).2.recording =
        st.recording) ∧
    (∀ (env : StartEnv) (now abs_now path : Nat) (st : TrackerState),
      st.recording = false → env.open_fails = false →
      env.metadata_write_fails = true →
      (start_recording_sync env now abs_now path st).1 = false ∧
      (start_recording_sync env now abs_now path st).2.log_file = some [] ∧
      (start_recording_sync env now abs_now path st).2.mouse_listener =
        st.mouse_listener ∧
      (start_recording_sync env now abs_now path st).2.keyboard_listener =
        st.keyboard_listener ∧
      (start_recording_sync env now abs_now path st).2.gamepad_tracking =
        st.gamepad_tracking) ∧
    (∀ (env : StartEnv) (now abs_now path : Nat) (st : TrackerState),
      st.recording = false → st.pynput_available = true →
      env.open_fails = false → env.metadata_write_fails = false →
      env.mouse_start_fails = false → env.keyboard_start_fails = true →
      (start_recording_sync env now abs_now path st).1 = false ∧
      (start_recording_sync env now abs_now path st).2.mouse_listener = true ∧
      (start_recording_sync env now abs_now path st).2.log_file.isSome =
        true) := by
  refine ⟨?_, ?_, ?_, ?_⟩
  · intro env now abs_now path st hr ho
    simp [start_recording_sync, hr, ho]
  · intro env now abs_now path st hfail
    by_cases hr : st.recording
    · rw [start_while_recording env now abs_now path st hr]
    · by_cases ho : env.open_fails
      · simp [start_recording_sync, hr, ho]
      · by_cases hm : env.metadata_write_fails
        · simp [start_recording_sync, log_event, hr, ho, hm]
        · by_cases hp : st.pynput_available
          · by_cases hms : env.mouse_start_fails
            · simp [start_recording_sync, log_event, hr, ho, hm, hp, hms]
            · by_cases hks : env.keyboard_start_fails
              · simp [start_recording_sync, log_event, hr, ho, hm, hp, hms,
                  hks]
              · simp [start_recording_sync, log_event, start_finish, hr, ho,
                  hm, hp, hms, hks] at hfail
          · simp [start_recording_sync, log_event, start_finish, hr, ho, hm,
              hp] at hfail
  · intro env now abs_now path st hr ho hm
    simp [start_recording_sync, log_event, hr, ho, hm]
  · intro env now abs_now path st hr hp ho hm hms hks
    simp [start_recording_sync, log_event, hr, hp, ho, hm, hms, hks]

/-- Witness for the amended C3 at concrete inputs. -/
theorem c3_start_failure_amended_witness :
    start_recording_sync { env_ok with open_fails := true } 0 0 6 init_state =
      (false, { init_state with current_log_path := some 6 }) ∧
    (start_recording_sync { env_ok with open_fails := true }
      0 0 6 init_state).2.recording = init_state.recording ∧
    ((start_recording_sync { env_ok with metadata_write_fails := true }
        1 10 6 init_state).1 = false ∧
     (start_recording_sync { env_ok with metadata_write_fails := true }
        1 10 6 init_state).2.log_file = some [] ∧
     (start_recording_sync { env_ok with metadata_write_fails := true }
        1 10 6 init_state).2.mouse_listener = init_state.mouse_listener ∧
     (start_recording_sync { env_ok with metadata_write_fails := true }
        1 10 6 init_state).2.keyboard_listener = init_state.keyboard_listener ∧
     (start_recording_sync { env_ok with metadata_write_fails := true }
        1 10 6 init_state).2.gamepad_tracking = init_state.gamepad_tracking) ∧
    ((start_recording_sync { env_ok with keyboard_start_fails := true }
        2 20 6 init_state).1 = false ∧
     (start_recording_sync { env_ok with keyboard_start_fails := true }
        2 20 6 init_state).2.mouse_listener = true ∧
     (start_recording_sync { env_ok with keyboard_start_fails := true }
        2 20 6 init_state).2.log_file.isSome = true) :=
  ⟨c3_start_failure_amended.1 _ 0 0 6 init_state rfl rfl,
   c3_start_failure_amended.2.1 _ 0 0 6 init_state rfl,
   c3_start_failure_amended.2.2.1 _ 1 10 6 init_state rfl rfl rfl,
   c3_start_failure_amended.2.2.2 _ 2 20 6 init_state rfl rfl rfl rfl rfl rfl⟩

theorem getLast_getD_cons (l : List Bool) : ∀ (a d : Bool),
    (a :: l).getLast?.getD d = l.getLast?.getD a := by
  induction l with
  | nil => intro a d; rfl
  | cons b t ih =>
      intro a d
      rw [List.getLast?_cons_cons, ih b d, ih b a]

theorem poll_states_cons_ok (p : MonitorPoll) (polls : List MonitorPoll)
    (b : Bool) (h : p.res = .ok b) :
    poll_states (p :: polls) = b :: poll_states polls := by
  simp [poll_states, h]

theorem poll_states_cons_err (p : MonitorPoll) (polls : List MonitorPoll)
    (h : p.res = .err) : poll_states (p :: polls) = poll_states polls := by
  simp [poll_states, h]

/-- C4: over any run of the monitor loop, the session actions fired are
exactly the edge actions of the successfully polled state sequence — one
start per false→true transition, one stop per true→false transition — and
`last_recording_state` ends at the last successfully polled state.  In
particular the polled sequence false,false,true,true,false (from any
tracker state, with any per-poll environment) fires exactly one start and
then one stop. -/
theorem c4_edge_detection :
    (∀ (polls : List MonitorPoll) (last : Bool) (st : TrackerState),
      (monitor_run polls last st).actions =
        edge_actions last (poll_states polls) ∧
      (monitor_run polls last st).last = (poll_states polls).getLastD last) ∧
    (∀ (p1 p2 p3 p4 p5 : MonitorPoll) (st : TrackerState),
      p1.res = .ok false → p2.res = .ok false → p3.res = .ok true →
      p4.res = .ok true → p5.res = .ok false →
      (monitor_run [p1, p2, p3, p4, p5] false st).actions =
        [MonitorAction.started, MonitorAction.stopped]) := by
  have general : ∀ (polls : List MonitorPoll) (last : Bool) (st : TrackerState),
      (monitor_run polls last st).actions =
        edge_actions last (poll_states polls) ∧
      (monitor_run polls last st).last = (poll_states polls).getLastD last := by
    intro polls
    induction polls with
    | nil => intro last st; exact ⟨rfl, rfl⟩
    | cons p rest ih =>
        intro last st
        cases hres : p.res with
        | err =>
            rw [poll_states_cons_err p rest hres]
            have hstep : monitor_step p last st =
                { last := last, st := st, actions := [], sleep_ms := 2000 } := by
              simp [monitor_step, hres]
            constructor
            · simp only [monitor_run, hstep]
              simpa using (ih last st).1
            · simp only [monitor_run, hstep]
              simpa using (ih last st).2
        | ok b =>
            rw [poll_states_cons_ok p rest b hres]
            cases b <;> cases last <;>
              simp [monitor_run, monitor_step, hres, edge_actions, ih,
                getLast_getD_cons]
  refine ⟨general, ?_⟩
  intro p1 p2 p3 p4 p5 st h1 h2 h3 h4 h5
  rw [(general [p1, p2, p3, p4, p5] false st).1,
    poll_states_cons_ok p1 _ false h1, poll_states_cons_ok p2 _ false h2,
    poll_states_cons_ok p3 _ true h3, poll_states_cons_ok p4 _ true h4,
    poll_states_cons_ok p5 _ false h5]
  rfl

/-- Witness for C4 on a concrete poll run. -/
theorem c4_edge_detection_witness :
    (monitor_run
      [{ res := .ok false, env := env_ok, now := 0, abs_now := 0, path := 0 },
       { res := .ok false, env := env_ok, now := 1, abs_now := 1, path := 0 },
       { res := .ok true, env := env_ok, now := 2, abs_now := 2, path := 0 },
       { res := .ok true, env := env_ok, now := 3, abs_now := 3, path := 0 },
       { res := .ok false, env := env_ok, now := 4, abs_now := 4, path := 0 }]
      false init_state).actions =
      [MonitorAction.started, MonitorAction.stopped] :=
  c4_edge_detection.2 _ _ _ _ _ init_state rfl rfl rfl rfl rfl

theorem delta_cond_true (x y px py : Int) (hne : ¬(x = px ∧ y = py)) :
    ((x - px).natAbs > 0 || (y - py).natAbs > 0) = true := by
  rcases not_and_or.mp hne with h | h
  · simp [Int.natAbs_pos.mpr (sub_ne_zero.mpr h)]
  · simp [Int.natAbs_pos.mpr (sub_ne_zero.mpr h)]

/-- The `SessionStart` record of the concrete session `rec_state`. -/
def start_rec_entry : LogEntry :=
  mk_entry 5 50 5 "SessionStart"
    (EventDetails.sessionStart 50 false true true true (some 1))

/-- State `rec_state` after one mouse move at (0,0): the move seeds
`last_mouse_pos` without logging anything. -/
def rec_state2 : TrackerState := deliver (.mouseMove 1 11 0 0) rec_state

/-- C5: while recording with a previously observed position, a raw mouse
position emits a `MouseDelta` record carrying exactly the difference from
the previous position iff that difference is non-zero in some axis (and in
either case the observed position is updated); the raw position sequence
(0,0),(0,0),(1,0),(1,0),(1,1) delivered after session start produces
exactly two `MouseDelta` records, `dx=1,dy=0` then `dx=0,dy=1`. -/
theorem c5_mouse_delta_suppression :
    (∀ (now abs_now : Nat) (x y px py : Int) (st : TrackerState)
      (recs : List LogEntry) (t0 : Nat),
      st.recording = true → st.last_mouse_pos = some (px, py) →
      st.log_file = some recs → st.start_time = some t0 →
      (¬(x = px ∧ y = py) →
        on_mouse_move false now abs_now x y st = .ok { st with
          log_file := some (recs ++ [mk_entry now abs_now t0 "MouseDelta"
            (.mouseDelta (x - px) (y - py)
              (if st.include_mouse_position then some (x, y) else none))])
          event_count := st.event_count + 1
          mouse_count := st.mouse_count + 1
          last_mouse_pos := some (x, y) }) ∧
      ((x = px ∧ y = py) →
        on_mouse_move false now abs_now x y st =
          .ok { st with last_mouse_pos := some (x, y) })) ∧
    Option.map mouse_delta_records
      (deliver_all
        [.mouseMove 1 11 0 0, .mouseMove 2 12 0 0, .mouseMove 3 13 1 0,
         .mouseMove 4 14 1 0, .mouseMove 5 15 1 1]
        (start_recording_sync env_ok 0 10 0 init_state).2).log_file =
      some [mk_entry 3 13 0 "MouseDelta" (.mouseDelta 1 0 (some (1, 0))),
            mk_entry 5 15 0 "MouseDelta" (.mouseDelta 0 1 (some (1, 1)))] := by
  constructor
  · intro now abs_now x y px py st recs t0 hrec hpos hf ht
    constructor
    · intro hne
      have hd := delta_cond_true x y px py hne
      have hw := log_event_write now abs_now "MouseDelta"
        (.mouseDelta (x - px) (y - py)
          (if st.include_mouse_position then some (x, y) else none))
        st recs t0 hf ht
      simp only [on_mouse_move, hrec, Bool.not_true, Bool.false_eq_true,
        if_false, hpos, hd, if_true]
      rw [hw, except_bind_ok]
      simp [mk_entry, hrec]
    · rintro ⟨hx, hy⟩
      subst hx; subst hy
      simp [on_mouse_move, hrec, hpos]
  · rfl

/-- Witness for C5: a concrete move from (0,0) to (2,1) during a session
appends exactly the `MouseDelta` record with `dx=2,dy=1`. -/
theorem c5_mouse_delta_suppression_witness :
    on_mouse_move false 2 12 2 1 rec_state2 = .ok { rec_state2 with
      log_file := some ([start_rec_entry] ++ [mk_entry 2 12 5 "MouseDelta"
        (.mouseDelta (2 - 0) (1 - 0)
          (if rec_state2.include_mouse_position then some (2, 1) else none))])
      event_count := rec_state2.event_count + 1
      mouse_count := rec_state2.mouse_count + 1
      last_mouse_pos := some (2, 1) } :=
  ((c5_mouse_delta_suppression.1 2 12 2 1 0 0 rec_state2 [start_rec_entry] 5
    rfl rfl rfl rfl).1 (by decide))

/-- C6: stopping twice in a row after a recording session performs exactly
one effective stop: the first call appends the single `SessionEnd` record
and closes the log file (one new entry in `closed_files`), and the second
call is a no-op — the state is unchanged by it. -/
theorem c6_stop_idempotent (st : TrackerState) (recs : List LogEntry)
    (t0 n1 a1 n2 a2 : Nat) (hrec : st.recording = true)
    (hf : st.log_file = some recs) (ht : st.start_time = some t0)
    (hnoend : count_session_end recs = 0) :
    stop_recording false n2 a2 (stop_recording false n1 a1 st) =
      stop_recording false n1 a1 st ∧
    (stop_recording false n1 a1 st).closed_files =
      st.closed_files ++ [recs ++ [end_entry n1 a1 t0 st]] ∧
    count_session_end (recs ++ [end_entry n1 a1 t0 st]) = 1 ∧
    (stop_recording false n1 a1 st).log_file = none := by
  have hstop := stop_spec n1 a1 st recs t0 hrec hf ht
  refine ⟨?_, ?_, ?_, ?_⟩
  · rw [hstop]
    exact stop_noop false n2 a2 _ rfl
  · rw [hstop]
  · simp only [count_session_end] at hnoend ⊢
    rw [List.countP_append, hnoend]
    rfl
  · rw [hstop]

/-- Witness for C6 on the concrete session `rec_state`. -/
theorem c6_stop_idempotent_witness :
    stop_recording false 8 80 (stop_recording false 7 70 rec_state) =
      stop_recording false 7 70 rec_state ∧
    (stop_recording false 7 70 rec_state).closed_files =
      rec_state.closed_files ++
        [[start_rec_entry] ++ [end_entry 7 70 5 rec_state]] ∧
    count_session_end ([start_rec_entry] ++ [end_entry 7 70 5 rec_state]) = 1 ∧
    (stop_recording false 7 70 rec_state).log_file = none :=
  c6_stop_idempotent rec_state [start_rec_entry] 5 7 70 8 80 rfl rfl rfl rfl

/-- C7 counterexample: a failing record write is not caught by `log_event`.
On the concrete recording session, a `log_event` whose write raises
propagates the exception (no degraded-mode continuation, no counter
update), and so does `on_mouse_move` when the write of its `MouseDelta`
record raises — the exception escapes the capture callback instead of
being logged and survived. -/
theorem c7_write_failure_counterexample :
    log_event true 6 60 "MouseClick"
      (.mouseClick "left" "pressed" 0 0) rec_state = Except.error () ∧
    on_mouse_move true 7 70 5 5 rec_state2 = Except.error () :=
  ⟨rfl, rfl⟩

theorem except_bind_err {a : Type} {b : Type} {g : Type} (e : g)
    (f : a → Except g b) : (Except.error e : Except g a) >>= f =
      Except.error e := rfl

/-- C7 (amended): if a record write fails during event recording,
`log_event` does not catch the failure: the exception propagates to the
caller (and out of the mouse handler), the log line is lost, and the
counter increments for that event are skipped because they follow the
write.  No degraded in-memory-counters-only mode exists in the code. -/
theorem c7_write_failure_amended :
    (∀ (now abs_now : Nat) (ty : String) (d : EventDetails)
      (st : TrackerState) (recs : List LogEntry) (t0 : Nat),
      st.log_file = some recs → st.start_time = some t0 →
      log_event true now abs_now ty d st = Except.error ()) ∧
    (∀ (now abs_now : Nat) (x y px py : Int) (st : TrackerState)
      (recs : List LogEntry) (t0 : Nat),
      st.recording = true → st.last_mouse_pos = some (px, py) →
      st.log_file = some recs → st.start_time = some t0 →
      ¬(x = px ∧ y = py) →
      on_mouse_move true now abs_now x y st = Except.error ()) := by
  constructor
  · intro now abs_now ty d st recs t0 hf ht
    simp [log_event, hf, ht]
  · intro now abs_now x y px py st recs t0 hrec hpos hf ht hne
    have hd := delta_cond_true x y px py hne
    have hw : log_event true now abs_now "MouseDelta"
        (.mouseDelta (x - px) (y - py)
          (if st.include_mouse_position then some (x, y) else none)) st =
        Except.error () := by
      simp [log_event, hf, ht]
    simp only [on_mouse_move, hrec, Bool.not_true, Bool.false_eq_true,
      if_false, hpos, hd, if_true]
    rw [hw, except_bind_err]

/-- Witness for the amended C7 on the concrete recording session. -/
theorem c7_write_failure_amended_witness :
    log_event true 6 60 "KeyDown" (.keyInfo "a") rec_state =
      Except.error () ∧
    on_mouse_move true 7 70 3 4 rec_state2 = Except.error () :=
  ⟨c7_write_failure_amended.1 6 60 "KeyDown" (.keyInfo "a") rec_state
    [start_rec_entry] 5 rfl rfl,
   c7_write_failure_amended.2 7 70 3 4 0 0 rec_state2
    [start_rec_entry] 5 rfl rfl rfl rfl (by decide)⟩

/-- C8: a failed poll leaves `last_recording_state` unchanged and fires no
session action (no spurious start/stop), and the loop backs off to the
2-second retry sleep; any successful poll sleeps the normal 0.5 seconds
again, so normal-interval polling resumes with the first success. -/
theorem c8_poll_failure_backoff :
    (∀ (p : MonitorPoll) (last : Bool) (st : TrackerState), p.res = .err →
      monitor_step p last st =
        { last := last, st := st, actions := [], sleep_ms := 2000 }) ∧
    (∀ (p : MonitorPoll) (last : Bool) (st : TrackerState) (b : Bool),
      p.res = .ok b → (monitor_step p last st).sleep_ms = 500) := by
  constructor
  · intro p last st h
    simp [monitor_step, h]
  · intro p last st b h
    cases b <;> cases last <;> simp [monitor_step, h]

/-- Witness for C8: one failed poll, then one successful poll. -/
theorem c8_poll_failure_backoff_witness :
    monitor_step
        { res := .err, env := env_ok, now := 0, abs_now := 0, path := 0 }
        false init_state =
      { last := false, st := init_state, actions := [], sleep_ms := 2000 } ∧
    (monitor_step
        { res := .ok true, env := env_ok, now := 1, abs_now := 1, path := 0 }
        false init_state).sleep_ms = 500 :=
  ⟨c8_poll_failure_backoff.1 _ false init_state rfl,
   c8_poll_failure_backoff.2 _ false init_state true rfl⟩

/-- C9 counterexample: `log_event` has no lock, and the counter update
`self.event_count += 1` is a separate load and store after the record
write.  Under the interleaving in which both threads append their record
and load the counter before either stores, two records are written but
`event_count` ends at 1 — an increment is lost, so counter increments are
not atomic with their writes and the path is not mutually excluded.  A
serialized schedule of the same two invocations counts 2. -/
theorem c9_lost_update_counterexample :
    run_two_log_events [false, true, false, true, false, true] =
      { records := 2, event_count := 1 } ∧
    run_two_log_events [false, false, false, true, true, true] =
      { records := 2, event_count := 2 } :=
  ⟨rfl, rfl⟩

/-- C9 (amended): the append-and-counter path of `log_event` is not
protected by mutual exclusion: there exists an interleaving of two
concurrent `log_event` invocations that writes both records but performs
only one effective counter increment, whereas both fully serialized
schedules count two. -/
theorem c9_no_mutual_exclusion :
    (∃ sched : List Bool,
      run_two_log_events sched = { records := 2, event_count := 1 }) ∧
    run_two_log_events [false, false, false, true, true, true] =
      { records := 2, event_count := 2 } ∧
    run_two_log_events [true, true, true, false, false, false] =
      { records := 2, event_count := 2 } :=
  ⟨⟨[false, true, false, true, false, true], rfl⟩, rfl, rfl⟩

/-- C10: a successful session start resets the last observed mouse position
to `None`, and the first raw position delivered while recording (whatever
its coordinates, and whether or not its write would fail) only seeds that
reference: no `MouseDelta` record is produced and the state is unchanged
except for `last_mouse_pos`. -/
theorem c10_first_move_only_seeds :
    (∀ (env : StartEnv) (now abs_now path : Nat) (st : TrackerState),
      (start_recording_sync env now abs_now path st).1 = true →
      (start_recording_sync env now abs_now path st).2.last_mouse_pos =
        none) ∧
    (∀ (wfail : Bool) (now abs_now : Nat) (x y : Int) (st : TrackerState),
      st.recording = true → st.last_mouse_pos = none →
      on_mouse_move wfail now abs_now x y st =
        .ok { st with last_mouse_pos := some (x, y) }) := by
  constructor
  · intro env now abs_now path st hsucc
    exact (start_true_spec env now abs_now path st hsucc).2.2.1
  · intro wfail now abs_now x y st hrec hnone
    simp [on_mouse_move, hrec, hnone]

/-- Witness for C10: the concrete successful start resets the reference,
and a first move at (42, -7) seeds it without logging. -/
theorem c10_first_move_only_seeds_witness :
    (start_recording_sync env_ok 5 50 3 init_state).2.last_mouse_pos =
      none ∧
    on_mouse_move true 6 60 42 (-7) rec_state =
      .ok { rec_state with last_mouse_pos := some (42, -7) } :=
  ⟨c10_first_move_only_seeds.1 env_ok 5 50 3 init_state rfl,
   c10_first_move_only_seeds.2 true 6 60 42 (-7) rec_state rfl rfl⟩
